import Mathlib

/-!
Verification of the geostack coordinate/tile pipeline.

The TypeScript source is embedded shallowly: JavaScript numbers are modelled
as exact rationals, and the transcendental library primitives (Math.sin,
Math.cos, Math.sqrt, Math.atan2, Math.PI) are abstracted as an explicit
record of rational-valued operations, so every structural statement proved
below holds for every interpretation of those primitives, in particular for
the floating-point one up to rounding.  JavaScript division is total
(yielding a value, never an exception); rational division is total as well.
-/

/-- A 3-component vector, mirroring THREE.Vector3 / Cesium.Cartesian3. -/
@[ext]
structure V3 where
  x : ℚ
  y : ℚ
  z : ℚ
  deriving DecidableEq, Repr

/-- Componentwise difference of vectors. -/
def V3.sub (a b : V3) : V3 := ⟨a.x - b.x, a.y - b.y, a.z - b.z⟩

/-- Scalar multiple of a vector, mirroring Cesium.Cartesian3.multiplyByScalar. -/
def V3.smul (a : V3) (s : ℚ) : V3 := ⟨a.x * s, a.y * s, a.z * s⟩

/-- A 4 by 4 matrix with entries named row-major exactly as the arguments of
THREE.Matrix4.set, so the embedding of each matrix literal in the source can
be read off positionally. -/
@[ext]
structure Mat4 where
  n11 : ℚ
  n12 : ℚ
  n13 : ℚ
  n14 : ℚ
  n21 : ℚ
  n22 : ℚ
  n23 : ℚ
  n24 : ℚ
  n31 : ℚ
  n32 : ℚ
  n33 : ℚ
  n34 : ℚ
  n41 : ℚ
  n42 : ℚ
  n43 : ℚ
  n44 : ℚ
  deriving DecidableEq, Repr

/-- The identity matrix (THREE.Matrix4.identity). -/
def Mat4.idMat : Mat4 :=
  ⟨1, 0, 0, 0, 0, 1, 0, 0, 0, 0, 1, 0, 0, 0, 0, 1⟩

/-- Matrix product a * b, the semantics of THREE a.multiply(b) and of
Cesium.Matrix4.multiply(a, b, _). -/
def Mat4.mul (a b : Mat4) : Mat4 where
  n11 := a.n11 * b.n11 + a.n12 * b.n21 + a.n13 * b.n31 + a.n14 * b.n41
  n12 := a.n11 * b.n12 + a.n12 * b.n22 + a.n13 * b.n32 + a.n14 * b.n42
  n13 := a.n11 * b.n13 + a.n12 * b.n23 + a.n13 * b.n33 + a.n14 * b.n43
  n14 := a.n11 * b.n14 + a.n12 * b.n24 + a.n13 * b.n34 + a.n14 * b.n44
  n21 := a.n21 * b.n11 + a.n22 * b.n21 + a.n23 * b.n31 + a.n24 * b.n41
  n22 := a.n21 * b.n12 + a.n22 * b.n22 + a.n23 * b.n32 + a.n24 * b.n42
  n23 := a.n21 * b.n13 + a.n22 * b.n23 + a.n23 * b.n33 + a.n24 * b.n43
  n24 := a.n21 * b.n14 + a.n22 * b.n24 + a.n23 * b.n34 + a.n24 * b.n44
  n31 := a.n31 * b.n11 + a.n32 * b.n21 + a.n33 * b.n31 + a.n34 * b.n41
  n32 := a.n31 * b.n12 + a.n32 * b.n22 + a.n33 * b.n32 + a.n34 * b.n42
  n33 := a.n31 * b.n13 + a.n32 * b.n23 + a.n33 * b.n33 + a.n34 * b.n43
  n34 := a.n31 * b.n14 + a.n32 * b.n24 + a.n33 * b.n34 + a.n34 * b.n44
  n41 := a.n41 * b.n11 + a.n42 * b.n21 + a.n43 * b.n31 + a.n44 * b.n41
  n42 := a.n41 * b.n12 + a.n42 * b.n22 + a.n43 * b.n32 + a.n44 * b.n42
  n43 := a.n41 * b.n13 + a.n42 * b.n23 + a.n43 * b.n33 + a.n44 * b.n43
  n44 := a.n41 * b.n14 + a.n42 * b.n24 + a.n43 * b.n34 + a.n44 * b.n44

/-- Translation matrix (THREE.Matrix4.makeTranslation, Cesium
Matrix4.fromTranslation). -/
def Mat4.makeTranslation (tx ty tz : ℚ) : Mat4 :=
  ⟨1, 0, 0, tx, 0, 1, 0, ty, 0, 0, 1, tz, 0, 0, 0, 1⟩

/-- THREE.Vector3.applyMatrix4: multiply the homogeneous column (x, y, z, 1)
and divide by the resulting w component. -/
def Mat4.applyV3 (m : Mat4) (v : V3) : V3 :=
  let w := 1 / (m.n41 * v.x + m.n42 * v.y + m.n43 * v.z + m.n44)
  ⟨(m.n11 * v.x + m.n12 * v.y + m.n13 * v.z + m.n14) * w,
   (m.n21 * v.x + m.n22 * v.y + m.n23 * v.z + m.n24) * w,
   (m.n31 * v.x + m.n32 * v.y + m.n33 * v.z + m.n34) * w⟩

/-- The abstract numeric library: the Math.* primitives used by the source,
kept as parameters so that structural theorems hold for every interpretation. -/
structure MathOps where
  sin : ℚ → ℚ
  cos : ℚ → ℚ
  sqrt : ℚ → ℚ
  atan2 : ℚ → ℚ → ℚ
  pi : ℚ

/-- WGS84 semi-major axis (MapLibreViewer.tsx WGS84_A). -/
def WGS84_A : ℚ := 6378137

/-- WGS84 semi-minor axis (MapLibreViewer.tsx WGS84_B). -/
def WGS84_B : ℚ := 6356752314245 / 1000000

/-- WGS84 first eccentricity squared (MapLibreViewer.tsx WGS84_E2). -/
def WGS84_E2 : ℚ := (WGS84_A * WGS84_A - WGS84_B * WGS84_B) / (WGS84_A * WGS84_A)

/-- Embedding of llaToECEF (MapLibreViewer.tsx lines 53-69). -/
def llaToECEF (ops : MathOps) (lon lat alt : ℚ) : V3 :=
  let lonRad := lon * (ops.pi / 180)
  let latRad := lat * (ops.pi / 180)
  let sinLat := ops.sin latRad
  let cosLat := ops.cos latRad
  let sinLon := ops.sin lonRad
  let cosLon := ops.cos lonRad
  let N := WGS84_A / ops.sqrt (1 - WGS84_E2 * sinLat * sinLat)
  ⟨(N + alt) * cosLat * cosLon,
   (N + alt) * cosLat * sinLon,
   (N * (1 - WGS84_E2) + alt) * sinLat⟩

/-- The rotation factor built inside createECEFtoLocalMatrix
(MapLibreViewer.tsx lines 86-91): rows are the East, North and Up unit
vectors at the reference point, expressed through the sine and cosine of the
reference longitude and latitude. -/
def enuRotation (ops : MathOps) (refLon refLat : ℚ) : Mat4 :=
  let lonRad := refLon * (ops.pi / 180)
  let latRad := refLat * (ops.pi / 180)
  let sinLon := ops.sin lonRad
  let cosLon := ops.cos lonRad
  let sinLat := ops.sin latRad
  let cosLat := ops.cos latRad
  ⟨-sinLon, cosLon, 0, 0,
   -sinLat * cosLon, -sinLat * sinLon, cosLat, 0,
   cosLat * cosLon, cosLat * sinLon, sinLat, 0,
   0, 0, 0, 1⟩

/-- Embedding of createECEFtoLocalMatrix (MapLibreViewer.tsx lines 74-96):
the ENU rotation post-multiplied by the translation by the negated reference
ECEF vector. -/
def createECEFtoLocalMatrix (ops : MathOps) (refLon refLat refAlt : ℚ) : Mat4 :=
  let r := llaToECEF ops refLon refLat refAlt
  let rotationMatrix := enuRotation ops refLon refLat
  let translationMatrix := Mat4.makeTranslation (-r.x) (-r.y) (-r.z)
  rotationMatrix.mul translationMatrix

/-- C1: for every reference point and every ECEF vector v, the matrix built
by createECEFtoLocalMatrix acts as the ENU rotation applied after the
translation by the negated reference ECEF vector, so its action on v is
Rot(ref) * (v - llaToECEF(ref)); in particular its action on the reference
ECEF vector itself is exactly the zero vector. -/
theorem createECEFtoLocalMatrix_is_rotation_after_translation
    (ops : MathOps) (refLon refLat refAlt : ℚ) (v : V3) :
    (createECEFtoLocalMatrix ops refLon refLat refAlt).applyV3 v =
      (enuRotation ops refLon refLat).applyV3
        (v.sub (llaToECEF ops refLon refLat refAlt)) ∧
    (createECEFtoLocalMatrix ops refLon refLat refAlt).applyV3
        (llaToECEF ops refLon refLat refAlt) = ⟨0, 0, 0⟩ := by
  constructor
  · simp only [createECEFtoLocalMatrix, Mat4.mul, Mat4.makeTranslation,
      Mat4.applyV3, V3.sub, enuRotation]
    ext <;> ring
  · simp only [createECEFtoLocalMatrix, Mat4.mul, Mat4.makeTranslation,
      Mat4.applyV3, enuRotation]
    ext <;> ring

/-- A geodetic result record, mirroring the untyped object literal returned
by ecefToLLA. -/
@[ext]
structure LLA where
  lon : ℚ
  lat : ℚ
  alt : ℚ
  deriving DecidableEq, Repr

/-- One latitude refinement step of the loop body in ecefToLLA
(MapLibreViewer.tsx lines 33-37). -/
def latRefineStep (ops : MathOps) (z p lat : ℚ) : ℚ :=
  let sinLat := ops.sin lat
  let N := WGS84_A / ops.sqrt (1 - WGS84_E2 * sinLat * sinLat)
  ops.atan2 (z + WGS84_E2 * N * sinLat) p

/-- The for-loop of ecefToLLA, as a counted iteration of latRefineStep. -/
def ecefLatLoop (ops : MathOps) (z p : ℚ) : Nat → ℚ → ℚ
  | 0, lat => lat
  | n + 1, lat => ecefLatLoop ops z p n (latRefineStep ops z p lat)

/-- Embedding of ecefToLLA (MapLibreViewer.tsx lines 28-48): initial latitude
from atan2, five refinement iterations, then longitude, latitude and
altitude in degrees/meters. -/
def ecefToLLA (ops : MathOps) (x y z : ℚ) : LLA :=
  let lon := ops.atan2 y x
  let p := ops.sqrt (x * x + y * y)
  let lat0 := ops.atan2 z (p * (1 - WGS84_E2))
  let lat := ecefLatLoop ops z p 5 lat0
  let sinLat := ops.sin lat
  let N := WGS84_A / ops.sqrt (1 - WGS84_E2 * sinLat * sinLat)
  ⟨lon * (180 / ops.pi),
   lat * (180 / ops.pi),
   p / ops.cos lat - N⟩

/-- C9: ecefToLLA is a total function of its input: for every input vector,
including the degenerate zero vector, it returns the record whose latitude is
the initial atan2 estimate refined by exactly five latRefineStep
applications, with no error branch anywhere on the path. -/
theorem ecefToLLA_total_five_iterations (ops : MathOps) (x y z : ℚ) :
    ecefToLLA ops x y z =
      { lon := ops.atan2 y x * (180 / ops.pi)
        lat :=
          (latRefineStep ops z (ops.sqrt (x * x + y * y))
            (latRefineStep ops z (ops.sqrt (x * x + y * y))
              (latRefineStep ops z (ops.sqrt (x * x + y * y))
                (latRefineStep ops z (ops.sqrt (x * x + y * y))
                  (latRefineStep ops z (ops.sqrt (x * x + y * y))
                    (ops.atan2 z (ops.sqrt (x * x + y * y) * (1 - WGS84_E2)))))))) *
            (180 / ops.pi)
        alt :=
          ops.sqrt (x * x + y * y) /
              ops.cos
                (latRefineStep ops z (ops.sqrt (x * x + y * y))
                  (latRefineStep ops z (ops.sqrt (x * x + y * y))
                    (latRefineStep ops z (ops.sqrt (x * x + y * y))
                      (latRefineStep ops z (ops.sqrt (x * x + y * y))
                        (latRefineStep ops z (ops.sqrt (x * x + y * y))
                          (ops.atan2 z (ops.sqrt (x * x + y * y) * (1 - WGS84_E2)))))))) -
            WGS84_A /
              ops.sqrt
                (1 -
                  WGS84_E2 *
                      ops.sin
                        (latRefineStep ops z (ops.sqrt (x * x + y * y))
                          (latRefineStep ops z (ops.sqrt (x * x + y * y))
                            (latRefineStep ops z (ops.sqrt (x * x + y * y))
                              (latRefineStep ops z (ops.sqrt (x * x + y * y))
                                (latRefineStep ops z (ops.sqrt (x * x + y * y))
                                  (ops.atan2 z
                                    (ops.sqrt (x * x + y * y) * (1 - WGS84_E2)))))))) *
                    ops.sin
                      (latRefineStep ops z (ops.sqrt (x * x + y * y))
                        (latRefineStep ops z (ops.sqrt (x * x + y * y))
                          (latRefineStep ops z (ops.sqrt (x * x + y * y))
                            (latRefineStep ops z (ops.sqrt (x * x + y * y))
                              (latRefineStep ops z (ops.sqrt (x * x + y * y))
                                (ops.atan2 z
                                  (ops.sqrt (x * x + y * y) * (1 - WGS84_E2))))))))) } := by
  rfl

/-- A JavaScript number as stored in the tile-streaming records: either a
finite value, an infinity, or NaN. -/
inductive JNum where
  | fin (q : ℚ)
  | inf
  | negInf
  | nan
  deriving DecidableEq, Repr

/-- The target record mutated by calculateTileViewError in 3d-tiles-renderer. -/
@[ext]
structure ViewErrorTarget where
  inView : Bool
  error : JNum
  distanceFromCamera : JNum
  deriving DecidableEq, Repr

/-- Embedding of the calculateTileViewError override installed in
create3DTilesLayer.onAdd (MapLibreViewer.tsx lines 248-253): the tile
argument is ignored and the target fields are overwritten with the
always-visible policy. -/
def calculateTileViewErrorOverride {α : Type} (_tile : α)
    (target : ViewErrorTarget) : ViewErrorTarget :=
  { target with
    inView := true
    error := JNum.inf
    distanceFromCamera := JNum.fin 0 }

/-- The TilesRenderer configuration fields touched by onAdd. -/
structure TilesRendererSettings where
  errorTarget : JNum
  maxDepth : JNum
  displayActiveTiles : Bool
  groupFrustumCulled : Bool
  groupMatrixAutoUpdate : Bool
  deriving DecidableEq, Repr

/-- Embedding of the configuration writes in create3DTilesLayer.onAdd
(MapLibreViewer.tsx lines 234-241), applied in source order to whatever
state the freshly constructed TilesRenderer starts in. -/
def applyOnAddTilesSettings (s : TilesRendererSettings) : TilesRendererSettings :=
  let s := { s with errorTarget := JNum.inf }
  let s := { s with maxDepth := JNum.fin 100 }
  let s := { s with displayActiveTiles := true }
  let s := { s with groupFrustumCulled := false }
  let s := { s with groupMatrixAutoUpdate := false }
  s

/-- C3: the overridden calculateTileViewError marks every tile as in view
with infinite error and zero camera distance, for every tile and every prior
target state; and after the onAdd configuration writes, errorTarget is
Infinity and frustum culling on the tiles group is disabled, whatever the
library defaults were. -/
theorem tileVisibilityPolicy_always_visible {α : Type} (tile : α)
    (target : ViewErrorTarget) (s : TilesRendererSettings) :
    calculateTileViewErrorOverride tile target =
      ⟨true, JNum.inf, JNum.fin 0⟩ ∧
    (applyOnAddTilesSettings s).errorTarget = JNum.inf ∧
    (applyOnAddTilesSettings s).groupFrustumCulled = false := by
  refine ⟨rfl, rfl, rfl⟩

/-- Embedding of the LIMITS constant object (constants.ts lines 60-67), as
the list of property names it declares with their values; JavaScript
property access on it is association-list lookup, returning none for a
property the object does not declare (the undefined value). -/
def LIMITS : List (String × ℚ) :=
  [("MAX_IMAGERY_ZOOM", 20), ("MIN_IMAGERY_ZOOM", 0), ("MAX_TILE_REQUESTS", 64)]

/-- JavaScript property read on a plain constant object. -/
def jsProp (fields : List (String × ℚ)) (k : String) : Option ℚ :=
  fields.lookup k

/-- Embedding of the maximumSimultaneousTileLoads entry of tilesetOptions
(CesiumViewer.tsx line 595): the value read from LIMITS.MAX_3D_MODEL_REQUESTS. -/
def tilesetOptionsMaximumSimultaneousTileLoads : Option ℚ :=
  jsProp LIMITS "MAX_3D_MODEL_REQUESTS"

/-- C6 (code bug evaluation): the property the tileset options read from
LIMITS does not exist, so the configured value is undefined rather than the
declared 64-request limit; the constant actually holding 64 is
MAX_TILE_REQUESTS, which the options never reference. -/
theorem tilesetOptions_maximumSimultaneousTileLoads_undefined :
    tilesetOptionsMaximumSimultaneousTileLoads = none ∧
    jsProp LIMITS "MAX_TILE_REQUESTS" = some 64 := by
  constructor <;> rfl

/-- External calls made by CesiumViewer.loadTileset, in program order
(CesiumViewer.tsx lines 566-611). -/
inductive CesiumLoadEvent where
  | removePrevPrimitive
  | newTilesetFromUrl
  | addPrimitive
  | requestRender
  deriving DecidableEq, Repr

/-- Trace of loadTileset: the previous tileset primitive, when one is
present, is removed from the scene (lines 566-570) before
Cesium3DTileset.fromUrl is awaited for the new model (line 601). -/
def loadTilesetEvents (hasPrevTileset : Bool) : List CesiumLoadEvent :=
  (if hasPrevTileset then [CesiumLoadEvent.removePrevPrimitive] else []) ++
    [CesiumLoadEvent.newTilesetFromUrl, CesiumLoadEvent.addPrimitive,
     CesiumLoadEvent.requestRender]

/-- External calls made by MapLibreViewer.handleModelChange, in program
order (MapLibreViewer.tsx lines 923-963).  map.removeLayer synchronously
runs the custom layer onRemove, whose body disposes the TilesRenderer
(lines 743-746); map.addLayer runs onAdd, which constructs the new
TilesRenderer on the tileset URL and so requests the new root manifest. -/
inductive MapLibreModelEvent where
  | removePrevLayer
  | disposePrevTilesRenderer
  | createNewLayer
  | addNewLayer
  deriving DecidableEq, Repr

/-- Trace of handleModelChange: the previous layer, when present, is removed
and disposed before the new 3D-tiles layer is created and added. -/
def handleModelChangeEvents (hasPrevLayer : Bool) : List MapLibreModelEvent :=
  (if hasPrevLayer then
    [MapLibreModelEvent.removePrevLayer, MapLibreModelEvent.disposePrevTilesRenderer]
  else []) ++
    [MapLibreModelEvent.createNewLayer, MapLibreModelEvent.addNewLayer]

/-- Position of the first occurrence of an event in a trace. -/
def traceIdx {α : Type} [DecidableEq α] : List α → α → Nat
  | [], _ => 0
  | x :: xs, e => if x = e then 0 else traceIdx xs e + 1

/-- C7: on a model switch with a previous tileset resident, the removal of
the previous Cesium primitive precedes the fromUrl request for the new
tileset, and in the MapLibre viewer the removal and disposal of the previous
custom layer precede the addition of the new 3D-tiles layer. -/
theorem modelSwitch_disposes_before_new_request :
    traceIdx (loadTilesetEvents true) CesiumLoadEvent.removePrevPrimitive <
      traceIdx (loadTilesetEvents true) CesiumLoadEvent.newTilesetFromUrl ∧
    traceIdx (handleModelChangeEvents true) MapLibreModelEvent.removePrevLayer <
      traceIdx (handleModelChangeEvents true) MapLibreModelEvent.addNewLayer ∧
    traceIdx (handleModelChangeEvents true) MapLibreModelEvent.disposePrevTilesRenderer <
      traceIdx (handleModelChangeEvents true) MapLibreModelEvent.addNewLayer := by
  decide

/-- Determinant of a 3 by 3 matrix given row-major. -/
def det3 (a b c d e f g h i : ℚ) : ℚ :=
  a * (e * i - f * h) - b * (d * i - f * g) + c * (d * h - e * g)

/-- Determinant of a 4 by 4 matrix, by cofactor expansion along the first row. -/
def Mat4.det (m : Mat4) : ℚ :=
  m.n11 * det3 m.n22 m.n23 m.n24 m.n32 m.n33 m.n34 m.n42 m.n43 m.n44 -
    m.n12 * det3 m.n21 m.n23 m.n24 m.n31 m.n33 m.n34 m.n41 m.n43 m.n44 +
    m.n13 * det3 m.n21 m.n22 m.n24 m.n31 m.n32 m.n34 m.n41 m.n42 m.n44 -
    m.n14 * det3 m.n21 m.n22 m.n23 m.n31 m.n32 m.n33 m.n41 m.n42 m.n43

/-- THREE.Matrix4.invert: the adjugate divided by the determinant, and the
all-zero matrix when the determinant vanishes. -/
def Mat4.invert (m : Mat4) : Mat4 :=
  let d := m.det
  if d = 0 then ⟨0, 0, 0, 0, 0, 0, 0, 0, 0, 0, 0, 0, 0, 0, 0, 0⟩ else
  { n11 := det3 m.n22 m.n23 m.n24 m.n32 m.n33 m.n34 m.n42 m.n43 m.n44 / d
    n12 := -det3 m.n12 m.n13 m.n14 m.n32 m.n33 m.n34 m.n42 m.n43 m.n44 / d
    n13 := det3 m.n12 m.n13 m.n14 m.n22 m.n23 m.n24 m.n42 m.n43 m.n44 / d
    n14 := -det3 m.n12 m.n13 m.n14 m.n22 m.n23 m.n24 m.n32 m.n33 m.n34 / d
    n21 := -det3 m.n21 m.n23 m.n24 m.n31 m.n33 m.n34 m.n41 m.n43 m.n44 / d
    n22 := det3 m.n11 m.n13 m.n14 m.n31 m.n33 m.n34 m.n41 m.n43 m.n44 / d
    n23 := -det3 m.n11 m.n13 m.n14 m.n21 m.n23 m.n24 m.n41 m.n43 m.n44 / d
    n24 := det3 m.n11 m.n13 m.n14 m.n21 m.n23 m.n24 m.n31 m.n33 m.n34 / d
    n31 := det3 m.n21 m.n22 m.n24 m.n31 m.n32 m.n34 m.n41 m.n42 m.n44 / d
    n32 := -det3 m.n11 m.n12 m.n14 m.n31 m.n32 m.n34 m.n41 m.n42 m.n44 / d
    n33 := det3 m.n11 m.n12 m.n14 m.n21 m.n22 m.n24 m.n41 m.n42 m.n44 / d
    n34 := -det3 m.n11 m.n12 m.n14 m.n21 m.n22 m.n24 m.n31 m.n32 m.n34 / d
    n41 := -det3 m.n21 m.n22 m.n23 m.n31 m.n32 m.n33 m.n41 m.n42 m.n43 / d
    n42 := det3 m.n11 m.n12 m.n13 m.n31 m.n32 m.n33 m.n41 m.n42 m.n43 / d
    n43 := -det3 m.n11 m.n12 m.n13 m.n21 m.n22 m.n23 m.n41 m.n42 m.n43 / d
    n44 := det3 m.n11 m.n12 m.n13 m.n21 m.n22 m.n23 m.n31 m.n32 m.n33 / d }

/-- The inverse of the identity matrix is the identity matrix. -/
theorem Mat4.invert_idMat : Mat4.invert Mat4.idMat = Mat4.idMat := by
  norm_num [Mat4.invert, Mat4.det, det3, Mat4.idMat]

/-- The THREE.Camera state fields touched by the custom layer render pass. -/
structure CameraState where
  position : V3
  rotation : V3
  matrixAutoUpdate : Bool
  matrix : Mat4
  matrixWorld : Mat4
  matrixWorldInverse : Mat4
  projectionMatrix : Mat4
  projectionMatrixInverse : Mat4

/-- THREE Camera.updateMatrixWorld for a parentless camera with force set:
when matrixAutoUpdate is on, the local matrix is recomposed from position
and rotation (an external THREE composition, passed in as composeM), then
matrixWorld is copied from the local matrix and matrixWorldInverse becomes
its inverse. -/
def cameraUpdateMatrixWorld (composeM : V3 → V3 → Mat4) (c : CameraState) :
    CameraState :=
  let c :=
    if c.matrixAutoUpdate then { c with matrix := composeM c.position c.rotation }
    else c
  let c := { c with matrixWorld := c.matrix }
  { c with matrixWorldInverse := c.matrixWorld.invert }

/-- Embedding of the camera writes performed on every render call right
before renderer.render (MapLibreViewer.tsx lines 641-650): the MapLibre
combined matrix becomes the projection matrix, and the camera transform is
reset to the identity. -/
def renderCameraFinalize (composeM : V3 → V3 → Mat4) (mainMatrix : Mat4)
    (c : CameraState) : CameraState :=
  let c := { c with projectionMatrix := mainMatrix }
  let c := { c with projectionMatrixInverse := c.projectionMatrix.invert }
  let c := { c with position := ⟨0, 0, 0⟩ }
  let c := { c with rotation := ⟨0, 0, 0⟩ }
  let c := { c with matrixAutoUpdate := false }
  let c := { c with matrix := Mat4.idMat }
  let c := { c with matrixWorldInverse := Mat4.idMat }
  cameraUpdateMatrixWorld composeM c

/-- The useDebugCamera constant of the render body (MapLibreViewer.tsx line
653). -/
def useDebugCamera : Bool := false

/-- The camera state at the renderer.render call (MapLibreViewer.tsx line
700): the finalize sequence always runs, and the debug branch, modelled by
an arbitrary further mutation debugSetup, is dead because useDebugCamera is
the constant false. -/
def cameraAtRenderCall (composeM : V3 → V3 → Mat4)
    (debugSetup : CameraState → CameraState) (mainMatrix : Mat4)
    (c : CameraState) : CameraState :=
  let c := renderCameraFinalize composeM mainMatrix c
  if useDebugCamera then debugSetup c else c

/-- C5: whatever state the camera is in when the render callback reaches the
matrix block, at the renderer.render call its position and rotation are
zero, its local matrix, world matrix and world-inverse matrix are the
identity, and its projection matrix is exactly the MapLibre combined matrix
passed in args.defaultProjectionData.mainMatrix. -/
theorem camera_identity_at_render (composeM : V3 → V3 → Mat4)
    (debugSetup : CameraState → CameraState) (mainMatrix : Mat4)
    (c : CameraState) :
    (cameraAtRenderCall composeM debugSetup mainMatrix c).position = ⟨0, 0, 0⟩ ∧
    (cameraAtRenderCall composeM debugSetup mainMatrix c).rotation = ⟨0, 0, 0⟩ ∧
    (cameraAtRenderCall composeM debugSetup mainMatrix c).matrix = Mat4.idMat ∧
    (cameraAtRenderCall composeM debugSetup mainMatrix c).matrixWorld = Mat4.idMat ∧
    (cameraAtRenderCall composeM debugSetup mainMatrix c).matrixWorldInverse =
      Mat4.idMat ∧
    (cameraAtRenderCall composeM debugSetup mainMatrix c).projectionMatrix =
      mainMatrix := by
  refine ⟨rfl, rfl, rfl, rfl, ?_, rfl⟩
  show Mat4.invert Mat4.idMat = Mat4.idMat
  exact Mat4.invert_idMat

/-- The characters encodeURIComponent leaves unescaped besides ASCII
letters and digits. -/
def uriUnreservedMarks : List Char :=
  ['-', '_', '.', '!', '~', '*', Char.ofNat 39, '(', ')']

/-- Whether encodeURIComponent leaves a character unescaped. -/
def isUriUnreserved (c : Char) : Bool :=
  c.isAlpha || c.isDigit || uriUnreservedMarks.contains c

/-- UTF-8 encoding of one code point, as a list of byte values. -/
def utf8Bytes (c : Char) : List Nat :=
  let n := c.toNat
  if n < 128 then [n]
  else if n < 2048 then [192 + n / 64, 128 + n % 64]
  else if n < 65536 then [224 + n / 4096, 128 + n / 64 % 64, 128 + n % 64]
  else [240 + n / 262144, 128 + n / 4096 % 64, 128 + n / 64 % 64, 128 + n % 64]

/-- Whether a byte is a UTF-8 continuation byte. -/
def isCont (b : Nat) : Bool := 128 ≤ b && b ≤ 191

/-- Strict UTF-8 decoding of a byte sequence: rejects overlong forms,
surrogate code points and out-of-range sequences, as the JavaScript URI
machinery does. -/
def utf8DecodeBytes : List Nat → Option (List Char)
  | [] => some []
  | b :: rest =>
    if b < 128 then do
      let tl ← utf8DecodeBytes rest
      pure (Char.ofNat b :: tl)
    else if 194 ≤ b && b ≤ 223 then
      match rest with
      | b1 :: rest1 =>
        if isCont b1 then do
          let tl ← utf8DecodeBytes rest1
          pure (Char.ofNat ((b - 192) * 64 + (b1 - 128)) :: tl)
        else none
      | _ => none
    else if 224 ≤ b && b ≤ 239 then
      match rest with
      | b1 :: b2 :: rest2 =>
        let firstOk :=
          if b = 224 then 160 ≤ b1 && b1 ≤ 191
          else if b = 237 then 128 ≤ b1 && b1 ≤ 159
          else isCont b1
        if firstOk && isCont b2 then do
          let tl ← utf8DecodeBytes rest2
          pure (Char.ofNat ((b - 224) * 4096 + (b1 - 128) * 64 + (b2 - 128)) :: tl)
        else none
      | _ => none
    else if 240 ≤ b && b ≤ 244 then
      match rest with
      | b1 :: b2 :: b3 :: rest3 =>
        let firstOk :=
          if b = 240 then 144 ≤ b1 && b1 ≤ 191
          else if b = 244 then 128 ≤ b1 && b1 ≤ 143
          else isCont b1
        if firstOk && isCont b2 && isCont b3 then do
          let tl ← utf8DecodeBytes rest3
          pure (Char.ofNat ((b - 240) * 262144 + (b1 - 128) * 4096 +
            (b2 - 128) * 64 + (b3 - 128)) :: tl)
        else none
      | _ => none
    else none

/-- Uppercase hexadecimal digit for a value below 16. -/
def hexDigitChar (n : Nat) : Char :=
  if n < 10 then Char.ofNat (48 + n) else Char.ofNat (55 + n)

/-- Percent escape of one byte, with uppercase hex as produced by the
JavaScript URI functions. -/
def percentEncodeByte (b : Nat) : String :=
  "%" ++ String.singleton (hexDigitChar (b / 16)) ++
    String.singleton (hexDigitChar (b % 16))

/-- The JavaScript encodeURIComponent builtin: unreserved characters pass
through, every other character is replaced by the percent escapes of its
UTF-8 bytes. -/
def encodeURIComponent (s : String) : String :=
  String.join (s.data.map fun c =>
    if isUriUnreserved c then String.singleton c
    else String.join ((utf8Bytes c).map percentEncodeByte))

/-- Value of one hexadecimal digit character. -/
def hexVal (c : Char) : Option Nat :=
  if c.isDigit then some (c.toNat - 48)
  else if 65 ≤ c.toNat ∧ c.toNat ≤ 70 then some (c.toNat - 55)
  else if 97 ≤ c.toNat ∧ c.toNat ≤ 102 then some (c.toNat - 87)
  else none

/-- Percent-unescaping into a byte sequence: a percent sign must be followed
by two hexadecimal digits, any other character contributes its own UTF-8
bytes; none models the URIError thrown by the JavaScript builtin. -/
def percentDecodeBytes : List Char → Option (List Nat)
  | [] => some []
  | '%' :: h1 :: h2 :: rest => do
      let a ← hexVal h1
      let b ← hexVal h2
      let tl ← percentDecodeBytes rest
      pure ((16 * a + b) :: tl)
  | ['%'] => none
  | ['%', _] => none
  | c :: rest => do
      let tl ← percentDecodeBytes rest
      pure (utf8Bytes c ++ tl)

/-- The JavaScript decodeURIComponent builtin: percent-unescape and decode
the resulting bytes as UTF-8; none models the URIError thrown on a malformed
escape or an invalid byte sequence. -/
def decodeURIComponent (s : String) : Option String := do
  let bytes ← percentDecodeBytes s.data
  let chars ← utf8DecodeBytes bytes
  pure (String.mk chars)

/-- Split a character list at a separator, with the JavaScript
String.split semantics: the empty string yields one empty segment. -/
def splitOnCharList (sep : Char) : List Char → List (List Char)
  | [] => [[]]
  | c :: rest =>
      let r := splitOnCharList sep rest
      if c = sep then [] :: r
      else
        match r with
        | [] => [[c]]
        | hd :: tl => (c :: hd) :: tl

/-- The JavaScript uri.split with a slash separator. -/
def splitSlash (s : String) : List String :=
  (splitOnCharList '/' s.data).map fun cs => String.mk cs

/-- Embedding of the server-side encodeUri helper (part_009 lines 9-15):
percent-encode every slash-separated segment except the relative markers. -/
def encodeUri (uri : String) : String :=
  if uri = "" then uri
  else
    String.intercalate "/" ((splitSlash uri).map fun part =>
      if part = "." || part = ".." then part else encodeURIComponent part)


mutual
/-- A JSON document, as produced by JSON.parse on the server route. -/
inductive JVal where
  | null
  | bool (b : Bool)
  | num (q : ℚ)
  | str (s : String)
  | arr (xs : JArr)
  | obj (fs : JObj)
  deriving DecidableEq
inductive JArr where
  | nil
  | cons (hd : JVal) (tl : JArr)
  deriving DecidableEq
inductive JObj where
  | nil
  | cons (k : String) (v : JVal) (tl : JObj)
  deriving DecidableEq
end

/-- JavaScript truthiness of a JSON value. -/
def JVal.truthy : JVal → Bool
  | JVal.null => false
  | JVal.bool b => b
  | JVal.num q => !(q == 0)
  | JVal.str s => !(s == "")
  | JVal.arr _ => true
  | JVal.obj _ => true

/-- Rewrite the uri property of a content object: a string value is encoded
with encodeUri, anything else is untouched (part_009 lines 26-31). -/
def mapUriField : JObj → JObj
  | JObj.nil => JObj.nil
  | JObj.cons k v tl =>
      JObj.cons k
        (if k = "uri" then
          match v with
          | JVal.str s => JVal.str (encodeUri s)
          | v => v
        else v)
        (mapUriField tl)

/-- The content branch of processTilesetJson: the value stored under the
content key is only touched when it is an object carrying a string uri. -/
def encodeContentUriField (v : JVal) : JVal :=
  match v with
  | JVal.obj fs => JVal.obj (mapUriField fs)
  | v => v

mutual
/-- Embedding of processTilesetJson (part_009 lines 20-44): on an object,
encode content.uri, recurse through the children array and through a truthy
root field; every non-object input is returned unchanged. -/
def processTilesetJson : JVal → JVal
  | JVal.obj fs => JVal.obj (processTilesetFields fs)
  | v => v
def processTilesetFields : JObj → JObj
  | JObj.nil => JObj.nil
  | JObj.cons k v tl =>
      JObj.cons k
        (if k = "content" then encodeContentUriField v
         else if k = "children" then processChildrenField v
         else if k = "root" then (if v.truthy then processTilesetJson v else v)
         else v)
        (processTilesetFields tl)
def processChildrenField : JVal → JVal
  | JVal.arr xs => JVal.arr (processChildrenArr xs)
  | v => v
def processChildrenArr : JArr → JArr
  | JArr.nil => JArr.nil
  | JArr.cons hd tl => JArr.cons (processTilesetJson hd) (processChildrenArr tl)
end

/-- The per-segment encoding described by the specification: each
slash-separated segment except the relative markers is replaced by its
encodeURIComponent image. -/
def specSegmentEncode (uri : String) : String :=
  String.intercalate "/" ((splitSlash uri).map fun seg =>
    if seg = "." || seg = ".." then seg else encodeURIComponent seg)

/-- Spec-described rewrite of the uri property of a content object. -/
def specUriFields : JObj → JObj
  | JObj.nil => JObj.nil
  | JObj.cons k v tl =>
      JObj.cons k
        (if k = "uri" then
          match v with
          | JVal.str s => JVal.str (specSegmentEncode s)
          | v => v
        else v)
        (specUriFields tl)

/-- Spec-described treatment of a content value. -/
def specEncodeContent (v : JVal) : JVal :=
  match v with
  | JVal.obj fs => JVal.obj (specUriFields fs)
  | v => v

mutual
/-- Modelled from the claim wording: the returned document has every
content.uri on the root and, recursively, on every child encoded segment by
segment, and every other field unchanged; the root field is followed
unconditionally. -/
def specEncodeTileset : JVal → JVal
  | JVal.obj fs => JVal.obj (specEncodeFields fs)
  | v => v
def specEncodeFields : JObj → JObj
  | JObj.nil => JObj.nil
  | JObj.cons k v tl =>
      JObj.cons k
        (if k = "content" then specEncodeContent v
         else if k = "children" then specEncodeChildren v
         else if k = "root" then specEncodeTileset v
         else v)
        (specEncodeFields tl)
def specEncodeChildren : JVal → JVal
  | JVal.arr xs => JVal.arr (specEncodeChildrenArr xs)
  | v => v
def specEncodeChildrenArr : JArr → JArr
  | JArr.nil => JArr.nil
  | JArr.cons hd tl => JArr.cons (specEncodeTileset hd) (specEncodeChildrenArr tl)
end

/-- The guarded server helper agrees with the unguarded per-segment map:
the empty string encodes to itself either way. -/
theorem encodeUri_eq_specSegmentEncode (u : String) :
    encodeUri u = specSegmentEncode u := by
  by_cases h : u = ""
  · subst h
    decide
  · simp [encodeUri, specSegmentEncode, h]

/-- The code-side content rewrite agrees with the spec-described one. -/
theorem mapUriField_eq_specUriFields : (fs : JObj) →
    mapUriField fs = specUriFields fs
  | JObj.nil => rfl
  | JObj.cons k v tl => by
      simp only [mapUriField, specUriFields, mapUriField_eq_specUriFields tl]
      congr 1
      by_cases hk : k = "uri"
      · simp only [hk, if_pos]
        cases v <;> simp [encodeUri_eq_specSegmentEncode]
      · simp [hk]

/-- The content branches agree. -/
theorem encodeContentUriField_eq_spec (v : JVal) :
    encodeContentUriField v = specEncodeContent v := by
  cases v <;> simp [encodeContentUriField, specEncodeContent,
    mapUriField_eq_specUriFields]

/-- A falsy JSON value is left unchanged by the spec-described transform. -/
theorem specEncodeTileset_falsy (v : JVal) (h : v.truthy = false) :
    specEncodeTileset v = v := by
  cases v <;> first
    | rfl
    | exact absurd h (by simp [JVal.truthy])

mutual
/-- C4 (server half, refinement): processTilesetJson computes exactly the
document described by the specification wording. -/
theorem processTilesetJson_eq_spec (v : JVal) :
    processTilesetJson v = specEncodeTileset v :=
  match v with
  | JVal.null => rfl
  | JVal.bool _ => rfl
  | JVal.num _ => rfl
  | JVal.str _ => rfl
  | JVal.arr _ => rfl
  | JVal.obj fs => by
      simp only [processTilesetJson, specEncodeTileset,
        processTilesetFields_eq_spec fs]
theorem processTilesetFields_eq_spec (fs : JObj) :
    processTilesetFields fs = specEncodeFields fs :=
  match fs with
  | JObj.nil => rfl
  | JObj.cons k v tl => by
      simp only [processTilesetFields, specEncodeFields,
        processTilesetFields_eq_spec tl]
      congr 1
      by_cases hc : k = "content"
      · simp [hc, encodeContentUriField_eq_spec]
      · by_cases hch : k = "children"
        · simp [hc, hch, processChildrenField_eq_spec v]
        · by_cases hr : k = "root"
          · simp only [hc, hch, hr, if_neg, if_pos, reduceIte]
            cases htv : v.truthy with
            | true => simp [processTilesetJson_eq_spec v]
            | false => simp [specEncodeTileset_falsy v htv]
          · simp [hc, hch, hr]
theorem processChildrenField_eq_spec (v : JVal) :
    processChildrenField v = specEncodeChildren v :=
  match v with
  | JVal.arr xs => by
      simp only [processChildrenField, specEncodeChildren,
        processChildrenArr_eq_spec xs]
  | JVal.null => rfl
  | JVal.bool _ => rfl
  | JVal.num _ => rfl
  | JVal.str _ => rfl
  | JVal.obj _ => rfl
theorem processChildrenArr_eq_spec (xs : JArr) :
    processChildrenArr xs = specEncodeChildrenArr xs :=
  match xs with
  | JArr.nil => rfl
  | JArr.cons hd tl => by
      simp only [processChildrenArr, specEncodeChildrenArr,
        processTilesetJson_eq_spec hd, processChildrenArr_eq_spec tl]
end

/-- The JavaScript regular-expression whitespace class. -/
def isJsSpace (c : Char) : Bool :=
  c = ' ' || c = Char.ofNat 9 || c = Char.ofNat 10 || c = Char.ofNat 11 ||
    c = Char.ofNat 12 || c = Char.ofNat 13 || c = Char.ofNat 160 ||
    c = Char.ofNat 5760 || (8192 ≤ c.toNat && c.toNat ≤ 8202) ||
    c = Char.ofNat 8232 || c = Char.ofNat 8233 || c = Char.ofNat 8239 ||
    c = Char.ofNat 8287 || c = Char.ofNat 12288 || c = Char.ofNat 65279

/-- Substring containment on strings. -/
def containsSub (s sub : String) : Bool :=
  (List.range (s.data.length + 1)).any fun i => sub.data.isPrefixOf (s.data.drop i)

/-- The test of the patched preprocessNode (MapLibreViewer.tsx line 181):
a bracket, whitespace, parenthesis, or one of the encoded forms
%5B, %5D, %20 occurs in the uri. -/
def hasBadUriChars (u : String) : Bool :=
  u.data.any (fun c => c = '[' || c = ']' || isJsSpace c || c = '(' || c = ')') ||
    containsSub u "%5B" || containsSub u "%5D" || containsSub u "%20"

/-- The per-segment normalization of the patched preprocessNode
(MapLibreViewer.tsx lines 183-191): decode then re-encode each segment,
falling back to plain encoding when decoding throws, and passing the
relative markers through. -/
def normalizeSeg (seg : String) : String :=
  if seg = "." || seg = ".." then seg
  else
    match decodeURIComponent seg with
    | some decoded => encodeURIComponent decoded
    | none => encodeURIComponent seg

/-- Segment-wise normalization of a whole uri. -/
def normalizeUri (u : String) : String :=
  String.intercalate "/" ((splitSlash u).map normalizeSeg)

/-- The content record of a tile passed to preprocessNode; rest stands for
the fields the patch never touches. -/
structure PatchContent (β : Type) where
  uri : Option String
  rest : β
  deriving DecidableEq, Repr

/-- A tile record passed to preprocessNode; rest stands for the fields the
patch never touches. -/
structure PatchTile (α β : Type) where
  content : Option (PatchContent β)
  rest : α
  deriving DecidableEq, Repr

/-- The uri rewrite performed by the patched preprocessNode before it
delegates (MapLibreViewer.tsx lines 172-195): a truthy content.uri that
matches the special-character test is replaced by its segment-wise
normalization; everything else is untouched. -/
def patchTileUri {α β : Type} (tile : PatchTile α β) : PatchTile α β :=
  match tile.content with
  | some c =>
      match c.uri with
      | some u =>
          if u ≠ "" then
            if hasBadUriChars u then
              { tile with content := some { c with uri := some (normalizeUri u) } }
            else tile
          else tile
      | none => tile
  | none => tile

/-- Embedding of the patched preprocessNode (MapLibreViewer.tsx lines
171-198): rewrite the uri, then call the original library method on the
rewritten tile with the same remaining arguments. -/
def preprocessNodePatched {α β γ δ : Type}
    (original : PatchTile α β → String → Option γ → δ)
    (tile : PatchTile α β) (tileSetDir : String) (parentTile : Option γ) : δ :=
  original (patchTileUri tile) tileSetDir parentTile

/-- C4: the server route rewrites every tileset document exactly as the
specification describes (each content.uri on the root and recursively on
every child is encoded segment by segment with encodeURIComponent, relative
markers and all other fields untouched); and the client-side patched
preprocessNode delegates to the original library method on a tile whose
content.uri, when it contains a bracket, whitespace, parenthesis or an
encoded form %5B/%5D/%20, has been normalized segment by segment by
decoding and re-encoding, and is otherwise untouched. -/
theorem tileset_uri_percent_encoding :
    (∀ v : JVal, processTilesetJson v = specEncodeTileset v) ∧
    (∀ (α β γ δ : Type) (original : PatchTile α β → String → Option γ → δ)
        (tile : PatchTile α β) (dir : String) (parent : Option γ),
      preprocessNodePatched original tile dir parent =
        original (patchTileUri tile) dir parent) ∧
    (∀ (α β : Type) (rest : α) (crest : β) (u : String),
      u ≠ "" → hasBadUriChars u = true →
      patchTileUri (PatchTile.mk (some (PatchContent.mk (some u) crest)) rest) =
        PatchTile.mk (some (PatchContent.mk (some (normalizeUri u)) crest)) rest) ∧
    (∀ (α β : Type) (rest : α) (crest : β) (u : String),
      hasBadUriChars u = false →
      patchTileUri (PatchTile.mk (some (PatchContent.mk (some u) crest)) rest) =
        PatchTile.mk (some (PatchContent.mk (some u) crest)) rest) := by
  refine ⟨processTilesetJson_eq_spec, fun _ _ _ _ _ _ _ _ => rfl, ?_, ?_⟩
  · intro α β rest crest u hu hbad
    simp [patchTileUri, hu, hbad]
  · intro α β rest crest u hbad
    by_cases hu : u = ""
    · simp [patchTileUri, hu]
    · simp [patchTileUri, hu, hbad]

/-- Witness for C4 at the concrete uri consisting of one opening bracket:
the special-character test fires and the normalization yields the percent
escape %5B. -/
theorem tileset_uri_percent_encoding_witness :
    ("[" : String) ≠ "" ∧ hasBadUriChars "[" = true ∧
    patchTileUri (PatchTile.mk (some (PatchContent.mk (some "[") ())) ()) =
      PatchTile.mk (some (PatchContent.mk (some "%5B") ()))
        (() : Unit) := by
  refine ⟨by decide, by decide, ?_⟩
  have h := tileset_uri_percent_encoding.2.2.1 Unit Unit () () "["
    (by decide) (by decide)
  rw [h]
  decide

/-- A 3D Tiles bounding volume as stored in tileset JSON: an optional box
property (12 numbers) and an optional sphere property (4 numbers). -/
structure BVol where
  box : Option (List ℚ)
  sphere : Option (List ℚ)
  deriving DecidableEq, Repr

/-- Math.min over a nonempty list (the empty case never arises: the corner
list always has eight entries). -/
def minList : List ℚ → ℚ
  | [] => 0
  | [x] => x
  | x :: xs => min x (minList xs)

/-- The eight box corners center plus or minus each half axis, in the order
of the nested sign loops of the source. -/
def boxCorners (center ax ay az : V3) : List V3 :=
  ([-1, 1] : List ℚ).flatMap fun sx =>
    ([-1, 1] : List ℚ).flatMap fun sy =>
      ([-1, 1] : List ℚ).map fun sz =>
        V3.mk (center.x + (sx * ax.x + sy * ay.x + sz * az.x))
          (center.y + (sx * ax.y + sy * ay.y + sz * az.y))
          (center.z + (sx * ax.z + sy * ay.z + sz * az.z))

/-- Embedding of baseFromBoundingVolume in getTilesetInfo (CesiumViewer.tsx
lines 496-538), with the Cesium ellipsoidal-height conversion
Cartographic.fromCartesian(v).height abstracted as the function ch: a box
yields the minimum height of its eight corners, a sphere yields the center
height minus the radius capped at 15 meters. -/
def baseFromBoundingVolume (ch : V3 → ℚ) (bv : Option BVol) : Option ℚ :=
  match bv with
  | none => none
  | some b =>
      match b.box with
      | some box =>
          if box.length ≠ 12 then none
          else
            let g := fun i => box.getD i 0
            let center := V3.mk (g 0) (g 1) (g 2)
            let ax := V3.mk (g 3) (g 4) (g 5)
            let ay := V3.mk (g 6) (g 7) (g 8)
            let az := V3.mk (g 9) (g 10) (g 11)
            some (minList ((boxCorners center ax ay az).map ch))
      | none =>
          match b.sphere with
          | some s =>
              if s.length ≠ 4 then none
              else
                let center := V3.mk (s.getD 0 0) (s.getD 1 0) (s.getD 2 0)
                let verticalRadius := min (s.getD 3 0) 15
                some (ch center - verticalRadius)
          | none => none

/-- The bounding volumes of the manifest root children, one optional
boundingVolume per child. -/
def childBasesOf (ch : V3 → ℚ) (children : List (Option BVol)) : List ℚ :=
  children.filterMap fun bv => baseFromBoundingVolume ch bv

/-- Embedding of the baseHeight computation of getTilesetInfo
(CesiumViewer.tsx lines 540-548): the ascending sort of the children base
heights indexed at floor of half the length, none when no child yields a
base. -/
def jsonBaseHeight (ch : V3 → ℚ) (children : List (Option BVol)) : Option ℚ :=
  let childBases := childBasesOf ch children
  if childBases.length = 0 then none
  else some ((childBases.mergeSort fun a b => decide (a ≤ b)).getD
    (childBases.length / 2) 0)

mutual
/-- A runtime Cesium tile: its bounding volume and its children. -/
inductive RTile where
  | mk (boundingVolume : Option BVol) (children : RTileList)
inductive RTileList where
  | nil
  | cons (hd : RTile) (tl : RTileList)
end

mutual
/-- Embedding of the runtime getBaseHeightFromBoundingVolume
(CesiumViewer.tsx lines 621-669): like the JSON variant for boxes, but a
sphere with children is estimated by the median of the recursive child
bases, and only a childless or baseless sphere falls back to the center
height minus the full radius.  A read past the end of a malformed box array
is modelled as 0; the tilesets in the repository carry 12-entry boxes. -/
def getBaseHeightFromBoundingVolume (ch : V3 → ℚ) : RTile → Option ℚ
  | RTile.mk bv children =>
    match bv with
    | none => none
    | some b =>
        match b.box with
        | some box =>
            let g := fun i => box.getD i 0
            let center := V3.mk (g 0) (g 1) (g 2)
            let ax := V3.mk (g 3) (g 4) (g 5)
            let ay := V3.mk (g 6) (g 7) (g 8)
            let az := V3.mk (g 9) (g 10) (g 11)
            some (minList ((boxCorners center ax ay az).map ch))
        | none =>
            match b.sphere with
            | some s =>
                let center := V3.mk (s.getD 0 0) (s.getD 1 0) (s.getD 2 0)
                let r := s.getD 3 0
                match children with
                | RTileList.nil => some (ch center - r)
                | RTileList.cons _ _ =>
                    let childBases := runtimeChildBases ch children
                    if childBases.length = 0 then some (ch center - r)
                    else
                      some ((childBases.mergeSort fun a b => decide (a ≤ b)).getD
                        (childBases.length / 2) 0)
            | none => none
def runtimeChildBases (ch : V3 → ℚ) : RTileList → List ℚ
  | RTileList.nil => []
  | RTileList.cons hd tl =>
      match getBaseHeightFromBoundingVolume ch hd with
      | some v => v :: runtimeChildBases ch tl
      | none => runtimeChildBases ch tl
end

/-- Embedding of the DEM adjustment block of loadTileset (CesiumViewer.tsx
lines 683-709): when the DEM sample is available and finite, premultiply
the tileset model matrix by the translation along the surface normal scaled
by the height difference; otherwise leave the matrix alone. -/
def demAdjustModelMatrix (jsonBase : Option ℚ) (runtimeBase : ℚ)
    (dem : Option ℚ) (normal : V3) (modelMatrix : Mat4) : Mat4 :=
  match dem with
  | none => modelMatrix
  | some demHeight =>
      let baseHeight := jsonBase.getD runtimeBase
      let rawDiff := demHeight - baseHeight
      let heightDiff := rawDiff
      let translation := V3.smul normal heightDiff
      let transform := Mat4.makeTranslation translation.x translation.y translation.z
      Mat4.mul transform modelMatrix

/-- Embedding of the surrounding base-height wiring of loadTileset
(CesiumViewer.tsx lines 674-688): the runtime fallback base is the root
bounding-volume estimate or, failing that, the bounding-sphere center
height, and the manifest base wins when present. -/
def loadTilesetDemAdjust (ch : V3 → ℚ) (root : RTile) (centerHeight : ℚ)
    (jsonBase : Option ℚ) (dem : Option ℚ) (normal : V3) (m : Mat4) : Mat4 :=
  let runtimeBase := (getBaseHeightFromBoundingVolume ch root).getD centerHeight
  demAdjustModelMatrix jsonBase runtimeBase dem normal m

/-- Modelled from the claim wording: the offset demHeight minus the
manifest-children base height is applied only when both are available, and
no shift is applied when the DEM sample or the base height is unavailable. -/
def demAdjustClaimed (jsonBase : Option ℚ) (dem : Option ℚ) (normal : V3)
    (m : Mat4) : Mat4 :=
  match dem, jsonBase with
  | some demHeight, some baseHeight =>
      let translation := V3.smul normal (demHeight - baseHeight)
      Mat4.mul (Mat4.makeTranslation translation.x translation.y translation.z) m
  | _, _ => m

/-- C8 counterexample: with no manifest base height available and a DEM
sample of 10 meters above a runtime fallback base of 0, the code still
shifts the tileset (the claim says no shift is applied): the two matrices
differ in the vertical translation entry. -/
theorem demAdjust_shifts_without_manifest_base :
    loadTilesetDemAdjust (fun _ => 0) (RTile.mk none RTileList.nil) 0 none
        (some 10) ⟨0, 0, 1⟩ Mat4.idMat ≠
      demAdjustClaimed none (some 10) ⟨0, 0, 1⟩ Mat4.idMat := by
  intro h
  have h34 := congrArg Mat4.n34 h
  simp [loadTilesetDemAdjust, demAdjustModelMatrix, demAdjustClaimed,
    getBaseHeightFromBoundingVolume, Mat4.mul, Mat4.makeTranslation,
    Mat4.idMat, V3.smul] at h34

/-- C8 amended: the vertical alignment premultiplies the model matrix by
the translation along the surface normal scaled by demHeight minus the base
height, where the base height is the manifest-children median estimate when
available and otherwise the runtime fallback (root bounding-volume estimate
or bounding-sphere center height); the matrix is left untouched exactly
when the DEM sample is unavailable. -/
theorem demAdjust_vertical_offset (ch : V3 → ℚ) (root : RTile)
    (centerHeight : ℚ) (jsonBase : Option ℚ) (dem : Option ℚ) (normal : V3)
    (m : Mat4) :
    loadTilesetDemAdjust ch root centerHeight jsonBase dem normal m =
      match dem with
      | none => m
      | some demHeight =>
          let base :=
            jsonBase.getD ((getBaseHeightFromBoundingVolume ch root).getD centerHeight)
          Mat4.mul
            (Mat4.makeTranslation (normal.x * (demHeight - base))
              (normal.y * (demHeight - base)) (normal.z * (demHeight - base))) m := by
  cases dem with
  | none => rfl
  | some demHeight =>
      simp [loadTilesetDemAdjust, demAdjustModelMatrix, V3.smul]

/-- A loaded DEM dataset (dem-provider.ts DemDataset) together with the
proj4 forward transform for its projection; the raster read is abstracted
as the function sample, whose none value stands for a non-finite raster
value. -/
structure DemDataset where
  proj : ℚ → ℚ → ℚ × ℚ
  minX : ℚ
  minY : ℚ
  maxX : ℚ
  maxY : ℚ
  width : ℤ
  height : ℤ
  noData : Option ℚ
  sample : ℤ → ℤ → Option ℚ

/-- Embedding of getDemHeight (dem-provider.ts lines 93-131): project the
point, reject it outside the bounding box, compute the integer cell, reject
an out-of-range cell, read one raster value, and reject a non-finite value
or the noData value. -/
def getDemHeight (ds : DemDataset) (lon lat : ℚ) : Option ℚ :=
  let xy := ds.proj lon lat
  let x := xy.1
  let y := xy.2
  if x < ds.minX ∨ x > ds.maxX ∨ y < ds.minY ∨ y > ds.maxY then none
  else
    let colF := (x - ds.minX) / (ds.maxX - ds.minX) * (ds.width : ℚ)
    let rowF := (ds.maxY - y) / (ds.maxY - ds.minY) * (ds.height : ℚ)
    let col := ⌊colF⌋
    let row := ⌊rowF⌋
    if col < 0 ∨ col ≥ ds.width ∨ row < 0 ∨ row ≥ ds.height then none
    else
      match ds.sample col row with
      | none => none
      | some h =>
          match ds.noData with
          | some nd => if h = nd then none else some h
          | none => some h

/-- The two DEM datasets the repository knows. -/
inductive DemName where
  | Kanash
  | Krasnoarmeiskoe
  deriving DecidableEq, Repr

/-- ASCII lowering of one character, the relevant fragment of the
JavaScript toLowerCase for the ASCII dataset names. -/
def lowerChar (c : Char) : Char :=
  if 65 ≤ c.toNat ∧ c.toNat ≤ 90 then Char.ofNat (c.toNat + 32) else c

/-- ASCII lowering of a string. -/
def lowerStr (s : String) : String :=
  String.mk (s.data.map lowerChar)

/-- Embedding of parseDemName (part_011 lines 7-13): a falsy argument is
rejected, otherwise the lowercased name is matched by substring. -/
def parseDemName (raw : Option String) : Option DemName :=
  match raw with
  | none => none
  | some r =>
      if r = "" then none
      else
        let norm := lowerStr r
        if containsSub norm "kanash" then some DemName.Kanash
        else if containsSub norm "krasno" then some DemName.Krasnoarmeiskoe
        else none

/-- The body of a dem-height route response. -/
inductive DemRouteBody where
  | heightNull (source : DemName) (outside : Bool)
  | heightVal (h : ℚ) (source : DemName)
  | invalidParams
  | readError
  deriving DecidableEq, Repr

/-- Embedding of the dem-height GET route (part_011 lines 15-54): the query
numbers arrive as none when Number produced a non-finite value (a missing or
empty parameter gives NaN); dataset loading may throw, which the route maps
to status 500; a null height from getDemHeight is answered with status 200
and an outside marker. -/
def demHeightRoute (load : DemName → Except Unit DemDataset)
    (lon lat : Option ℚ) (nameStr : Option String) : Nat × DemRouteBody :=
  match lon, lat, parseDemName nameStr with
  | some lo, some la, some nm =>
      match load nm with
      | Except.error _ => (500, DemRouteBody.readError)
      | Except.ok ds =>
          match getDemHeight ds lo la with
          | none => (200, DemRouteBody.heightNull nm true)
          | some h => (200, DemRouteBody.heightVal h nm)
  | _, _, _ => (400, DemRouteBody.invalidParams)

/-- C10: a query outside the DEM coverage or hitting the noData value is
not an error: getDemHeight returns none without any failure path, the route
maps a none height to status 200 with a null height and an outside marker,
and status 400 arises exactly when a coordinate is non-finite or the name
matches neither dataset. -/
theorem demHeight_outside_is_not_an_error :
    (∀ (ds : DemDataset) (lon lat : ℚ),
      ((ds.proj lon lat).1 < ds.minX ∨ (ds.proj lon lat).1 > ds.maxX ∨
        (ds.proj lon lat).2 < ds.minY ∨ (ds.proj lon lat).2 > ds.maxY) →
      getDemHeight ds lon lat = none) ∧
    (∀ (ds : DemDataset) (lon lat nd : ℚ),
      ds.noData = some nd → (∀ c r, ds.sample c r = some nd) →
      getDemHeight ds lon lat = none) ∧
    (∀ (load : DemName → Except Unit DemDataset) (lo la : ℚ)
        (nameStr : Option String) (nm : DemName) (ds : DemDataset),
      parseDemName nameStr = some nm → load nm = Except.ok ds →
      getDemHeight ds lo la = none →
      demHeightRoute load (some lo) (some la) nameStr =
        (200, DemRouteBody.heightNull nm true)) ∧
    (∀ (load : DemName → Except Unit DemDataset) (lon lat : Option ℚ)
        (nameStr : Option String),
      (demHeightRoute load lon lat nameStr).1 = 400 ↔
        (lon = none ∨ lat = none ∨ parseDemName nameStr = none)) := by
  refine ⟨?_, ?_, ?_, ?_⟩
  · intro ds lon lat hout
    simp only [getDemHeight]
    rw [if_pos hout]
  · intro ds lon lat nd hnd hsample
    simp only [getDemHeight]
    by_cases hout : (ds.proj lon lat).1 < ds.minX ∨ (ds.proj lon lat).1 > ds.maxX ∨
        (ds.proj lon lat).2 < ds.minY ∨ (ds.proj lon lat).2 > ds.maxY
    · rw [if_pos hout]
    · rw [if_neg hout]
      simp only [hsample, hnd, if_pos rfl]
      split <;> rfl
  · intro load lo la nameStr nm ds hname hload hnone
    simp [demHeightRoute, hname, hload, hnone]
  · intro load lon lat nameStr
    cases lon with
    | none => simp [demHeightRoute]
    | some lo =>
        cases lat with
        | none => simp [demHeightRoute]
        | some la =>
            cases hname : parseDemName nameStr with
            | none => simp [demHeightRoute, hname]
            | some nm =>
                simp only [demHeightRoute, hname]
                cases hload : load nm with
                | error e => simp
                | ok ds => cases hres : getDemHeight ds lo la <;> simp [hres]

/-- The concrete dataset used to witness the DEM theorems: a ten by ten
raster over the unit box with an identity projection whose every cell holds
the noData value. -/
def demWitnessDataset : DemDataset where
  proj := fun lo la => (lo, la)
  minX := 0
  minY := 0
  maxX := 10
  maxY := 10
  width := 10
  height := 10
  noData := some (-9999)
  sample := fun _ _ => some (-9999)

/-- Witness for C10 at concrete inputs: a point east of the coverage yields
none, a point inside the coverage hits noData and yields none, the route
answers 200 with a null height for it, and a missing longitude is a 400. -/
theorem demHeight_outside_is_not_an_error_witness :
    getDemHeight demWitnessDataset 20 5 = none ∧
    getDemHeight demWitnessDataset 5 5 = none ∧
    demHeightRoute (fun _ => Except.ok demWitnessDataset) (some 5) (some 5)
        (some "Kanash") = (200, DemRouteBody.heightNull DemName.Kanash true) ∧
    (demHeightRoute (fun _ => Except.ok demWitnessDataset) none (some 5)
        (some "Kanash")).1 = 400 := by
  have houtside := demHeight_outside_is_not_an_error.1 demWitnessDataset 20 5
    (by norm_num [demWitnessDataset])
  have hnodata := demHeight_outside_is_not_an_error.2.1 demWitnessDataset 5 5
    (-9999) rfl (fun _ _ => rfl)
  have hroute := demHeight_outside_is_not_an_error.2.2.1
    (fun _ => Except.ok demWitnessDataset) 5 5 (some "Kanash") DemName.Kanash
    demWitnessDataset (by decide) rfl hnodata
  have h400 := (demHeight_outside_is_not_an_error.2.2.2
    (fun _ => Except.ok demWitnessDataset) none (some 5) (some "Kanash")).mpr
    (Or.inl rfl)
  exact ⟨houtside, hnodata, hroute, h400⟩
